import Mathlib

/-!
# Verification of the cartService discount engine

Shallow embedding of the coupon/discount core of the cartService repository
(`src/handlers/cartwise.handler.ts`, `src/handlers/productwise.handler.ts`,
`src/handlers/BxGy.handler.ts`, `src/handlers/CartFactory.ts`,
`src/services/cart.service.ts`), together with theorems checking the
natural-language specification against it.

Modelling conventions:
* All quantities and unit prices are natural numbers (the request schema
  validates quantities as positive integers and prices as non-negative
  numbers; the spec fixes prices to integer minor currency units).
  Monetary results are integers, since a discount can push `subTotal`
  below zero.  `Math.floor` on such integer arithmetic is the identity,
  and `Math.floor(a/b)` for naturals is natural division.
* JavaScript `NaN` can arise in the BxGy handler (`Math.floor(0/0)`).
  Monetary intermediate values are therefore `MInt := Option Int` with
  `none` playing the role of `NaN`, and written-on-application fields are
  `JsVal` (`undef` for a field never written, `num`, or `nan`).
* `Math.floor(x/0) = Infinity` for `x > 0`; the only use, immediately
  clamped by `Math.min(·, repetitionLimit)`, is modelled by that clamp.
* The source casts `coupon.conditions as …Conditions` without a runtime
  shape check; coupons are built by validation tied to the type tag, so
  the cast is modelled as a pattern match (a mismatched payload, on which
  the source would read `undefined` fields or throw, is treated as not
  applicable / no-op).
* Truthiness guards on optional numeric fields (`conditions.maxCartValue &&`,
  `discountDetails.maxDiscount &&`, `coupon.usageLimit &&`, …) are modelled
  field-by-field: `none` and `some 0` are both falsy.
* The Redis store is modelled as a list of coupons keyed by `id`; the
  evaluation instant (`new Date()`) is an explicit integer parameter.
-/

/-- JavaScript number that may be `NaN` (`none`). -/
abbrev MInt := Option Int

/-- Value of a cart/item field that is written only during application:
`undef` models a field that was never assigned. -/
inductive JsVal where
  | undef : JsVal
  | num : Int → JsVal
  | nan : JsVal
deriving Repr, DecidableEq

/-- Coerce an `MInt` into a written field value. -/
def MInt.toVal : MInt → JsVal
  | some v => .num v
  | none => .nan

/-- JS addition with `NaN` propagation. -/
def jsAdd : MInt → MInt → MInt
  | some a, some b => some (a + b)
  | _, _ => none

/-- JS subtraction with `NaN` propagation. -/
def jsSub : MInt → MInt → MInt
  | some a, some b => some (a - b)
  | _, _ => none

/-- JS `x <= 0` (false when `x` is `NaN`). -/
def jsLeZero : MInt → Bool
  | some d => d ≤ 0
  | none => false

/-- One cart item (`src/types/product.type.ts` `CartItem`): request fields
plus the derived fields written only by `applyDiscount`. -/
structure CartItem where
  product_id : String
  quantity : Nat
  price : Nat
  category : Option String := none
  total_discount : JsVal := .undef
  final_price : JsVal := .undef
  freeQuantity : JsVal := .undef
  appliedCouponIds : List String := []
deriving Repr, DecidableEq

/-- A cart (`src/types/cart.type.ts`). -/
structure Cart where
  items : List CartItem
  totalAmount : Nat
  discountedAmount : JsVal := .undef
  subTotal : JsVal := .undef
deriving Repr, DecidableEq

/-- Discount payload (`src/types/coupon.type.ts` `DiscountDetails`). -/
inductive DiscountDetails where
  | percentage (value : Nat) (maxDiscount : Option Nat)
  | fixed (value : Nat)
deriving Repr, DecidableEq

/-- `CartWiseConditions`. -/
structure CartWiseConditions where
  minCartValue : Nat
  maxCartValue : Option Nat := none
  minItems : Option Nat := none
deriving Repr, DecidableEq

/-- `ProductWiseConditions`. -/
structure ProductWiseConditions where
  productIds : Option (List String) := none
  categories : Option (List String) := none
  minQuantity : Option Nat := none
deriving Repr, DecidableEq

/-- `BxGyConditions`: buy requirements, get entitlements, repetition limit. -/
structure BxGyConditions where
  buyProducts : List (String × Nat)
  getProducts : List (String × Nat)
  repetitionLimit : Nat
deriving Repr, DecidableEq

/-- `CouponConditions` tagged union. -/
inductive CouponConditions where
  | cartWise (c : CartWiseConditions)
  | productWise (c : ProductWiseConditions)
  | bxgy (c : BxGyConditions)
deriving Repr, DecidableEq

/-- A coupon (`src/types/coupon.type.ts` `Coupon`); `expiryDate` is an
integer timestamp. -/
structure Coupon where
  id : String
  name : String
  type : String
  isActive : Bool
  expiryDate : Option Int := none
  usageLimit : Option Nat := none
  usedCount : Nat
  conditions : CouponConditions
  discountDetails : DiscountDetails
deriving Repr, DecidableEq

/-- Discovery output (`ApplicableCoupons`); the discount is a JS number and
can be `NaN` when produced by the BxGy handler. -/
structure ApplicableCoupons where
  id : String
  type : String
  discount : MInt
deriving Repr, DecidableEq

/-- First cart item with the given product id (`cart.items.find(...)`). -/
def findItem (cart : Cart) (pid : String) : Option CartItem :=
  cart.items.find? (fun item => item.product_id = pid)

namespace CartWiseHandler

/-- `CartWiseHandler.calculateDiscount`.  Note: in the `percentage` branch
the source computes `Math.floor(cart.totalAmount/100)` — the percentage
`value` is never read.  `maxDiscount: 0` is falsy in the source's
`couponDiscount.maxDiscount ? … : …`. -/
def calculateDiscount (cart : Cart) (coupon : Coupon) : Int :=
  match coupon.discountDetails with
  | .percentage _value maxDiscount =>
      let calculatedDiscount : Int := (cart.totalAmount / 100 : Nat)
      match maxDiscount with
      | some m => if m = 0 then calculatedDiscount else min (m : Int) calculatedDiscount
      | none => calculatedDiscount
  | .fixed value => (value : Int)

/-- Body of the `for(const coupon of coupons)` loop in
`CartWiseHandler.isApplicable`; `none` models `continue`. -/
def isApplicableOne (cart : Cart) (coupon : Coupon) : Option ApplicableCoupons :=
  match coupon.conditions with
  | .cartWise conditions =>
      if cart.totalAmount < conditions.minCartValue then none
      else if (match conditions.maxCartValue with
               | some m => m != 0 && decide (m < cart.totalAmount)
               | none => false) then none
      else if (match conditions.minItems with
               | some m => m != 0 && decide (cart.items.length < m)
               | none => false) then none
      else
        let discount := calculateDiscount cart coupon
        if discount ≤ 0 then none
        else some ⟨coupon.id, "cart", some discount⟩
  | _ => none

/-- `CartWiseHandler.isApplicable`. -/
def isApplicable (cart : Cart) (coupons : List Coupon) : List ApplicableCoupons :=
  if cart.items.isEmpty then []
  else coupons.filterMap (isApplicableOne cart)

/-- `CartWiseHandler.applyDiscount`. -/
def applyDiscount (cart : Cart) (coupon : Coupon) : Cart :=
  let discount := calculateDiscount cart coupon
  { cart with
    discountedAmount := .num discount
    subTotal := .num ((cart.totalAmount : Int) - discount) }

end CartWiseHandler

namespace ProductWiseHandler

/-!  Embedding of `src/handlers/productwise.handler.ts` (the handler file
present in the repository's handler directory).  Its matching predicate
reads only `conditions.productIds`; `conditions.categories` is never
consulted.  (`conditions.productIds && conditions.productIds.includes(…)`:
`undefined` is falsy, and an empty array is truthy but `includes` on it is
false, so both collapse to a membership test defaulting to false.) -/

/-- Per-item match test of `ProductWiseHandler`: product-id membership only. -/
def isProductMatch (conditions : ProductWiseConditions) (item : CartItem) : Bool :=
  match conditions.productIds with
  | some ids => ids.contains item.product_id
  | none => false

/-- `ProductWiseHandler.calculateDiscount`: per matched item, floored
percentage of `price*quantity` capped by a truthy `maxDiscount`, or a fixed
value per unit. -/
def calculateDiscount (cart : Cart) (coupon : Coupon) : Int :=
  match coupon.conditions with
  | .productWise conditions =>
      cart.items.foldl (fun totalDiscount item =>
        if isProductMatch conditions item then
          let itemTotal : Nat := item.price * item.quantity
          match coupon.discountDetails with
          | .percentage value maxDiscount =>
              let itemDiscount : Nat := itemTotal * value / 100
              let itemDiscount : Nat :=
                match maxDiscount with
                | some m => if m = 0 then itemDiscount else min itemDiscount m
                | none => itemDiscount
              totalDiscount + itemDiscount
          | .fixed value => totalDiscount + value * item.quantity
        else totalDiscount) 0
  | _ => 0

/-- Loop body of `ProductWiseHandler.isApplicable`. -/
def isApplicableOne (cart : Cart) (coupon : Coupon) : Option ApplicableCoupons :=
  match coupon.conditions with
  | .productWise conditions =>
      let hasApplicableProducts :=
        cart.items.any (isProductMatch conditions)
      let totalQuantityOfApplicableProducts :=
        cart.items.foldl (fun s item =>
          if isProductMatch conditions item then s + item.quantity else s) 0
      if !hasApplicableProducts then none
      else if (match conditions.minQuantity with
               | some m => m != 0 && decide (totalQuantityOfApplicableProducts < m)
               | none => false) then none
      else
        let discount := calculateDiscount cart coupon
        if discount ≤ 0 then none
        else some ⟨coupon.id, "product", some discount⟩
  | _ => none

/-- `ProductWiseHandler.isApplicable`. -/
def isApplicable (cart : Cart) (coupons : List Coupon) : List ApplicableCoupons :=
  if cart.items.isEmpty then []
  else coupons.filterMap (isApplicableOne cart)

/-- The per-item discount written by `ProductWiseHandler.applyDiscount`
(the same arithmetic as in `calculateDiscount`). -/
def itemDiscount (details : DiscountDetails) (item : CartItem) : Nat :=
  let itemTotal : Nat := item.price * item.quantity
  match details with
  | .percentage value maxDiscount =>
      let d : Nat := itemTotal * value / 100
      match maxDiscount with
      | some m => if m = 0 then d else min d m
      | none => d
  | .fixed value => value * item.quantity

/-- The `for(const item of cart.items)` loop of
`ProductWiseHandler.applyDiscount`: rewrites matched items and accumulates
the total discount. -/
def applyLoop (conditions : ProductWiseConditions) (details : DiscountDetails)
    (couponId : String) : List CartItem → Int → List CartItem × Int
  | [], totalDiscount => ([], totalDiscount)
  | item :: rest, totalDiscount =>
      if isProductMatch conditions item then
        let d := itemDiscount details item
        let item' := { item with
          total_discount := .num d
          final_price := .num ((item.price * item.quantity : Nat) - (d : Int))
          appliedCouponIds := item.appliedCouponIds ++ [couponId] }
        let (rest', t) := applyLoop conditions details couponId rest (totalDiscount + d)
        (item' :: rest', t)
      else
        let (rest', t) := applyLoop conditions details couponId rest totalDiscount
        (item :: rest', t)

/-- `ProductWiseHandler.applyDiscount`. -/
def applyDiscount (cart : Cart) (coupon : Coupon) : Cart :=
  match coupon.conditions with
  | .productWise conditions =>
      let (items', totalDiscount) :=
        applyLoop conditions coupon.discountDetails coupon.id cart.items 0
      { cart with
        items := items'
        discountedAmount := .num totalDiscount
        subTotal := .num ((cart.totalAmount : Int) - totalDiscount) }
  | _ => cart

end ProductWiseHandler

namespace ProductWiseHandlerRev

/-!  Embedding of the other revision of `ProductWiseHandler` present in the
repository sources, whose match test is
`isProductMatch || isCategoryMatch` (product-id membership OR category
membership); everything else is as in `ProductWiseHandler`. -/

/-- Per-item match test of the revision: product id OR category. -/
def isMatch (conditions : ProductWiseConditions) (item : CartItem) : Bool :=
  (match conditions.productIds with
   | some ids => ids.contains item.product_id
   | none => false) ||
  (match conditions.categories, item.category with
   | some cats, some c => cats.contains c
   | _, _ => false)

/-- The revision's `calculateDiscount`. -/
def calculateDiscount (cart : Cart) (coupon : Coupon) : Int :=
  match coupon.conditions with
  | .productWise conditions =>
      cart.items.foldl (fun totalDiscount item =>
        if isMatch conditions item then
          let itemTotal : Nat := item.price * item.quantity
          match coupon.discountDetails with
          | .percentage value maxDiscount =>
              let itemDiscount : Nat := itemTotal * value / 100
              let itemDiscount : Nat :=
                match maxDiscount with
                | some m => if m = 0 then itemDiscount else min itemDiscount m
                | none => itemDiscount
              totalDiscount + itemDiscount
          | .fixed value => totalDiscount + value * item.quantity
        else totalDiscount) 0
  | _ => 0

/-- Loop body of the revision's `isApplicable`. -/
def isApplicableOne (cart : Cart) (coupon : Coupon) : Option ApplicableCoupons :=
  match coupon.conditions with
  | .productWise conditions =>
      let hasApplicableProducts := cart.items.any (isMatch conditions)
      let totalQuantityOfApplicableProducts :=
        cart.items.foldl (fun s item =>
          if isMatch conditions item then s + item.quantity else s) 0
      if !hasApplicableProducts then none
      else if (match conditions.minQuantity with
               | some m => m != 0 && decide (totalQuantityOfApplicableProducts < m)
               | none => false) then none
      else
        let discount := calculateDiscount cart coupon
        if discount ≤ 0 then none
        else some ⟨coupon.id, "product", some discount⟩
  | _ => none

/-- The revision's `isApplicable`. -/
def isApplicable (cart : Cart) (coupons : List Coupon) : List ApplicableCoupons :=
  if cart.items.isEmpty then []
  else coupons.filterMap (isApplicableOne cart)

end ProductWiseHandlerRev

namespace BxGyHandler

/-!  Embedding of `src/handlers/BxGy.handler.ts`.  The only place where the
JavaScript number semantics of `NaN`/`Infinity` is observable is
`Math.floor(totalBuyQuantityInCart / requiredBuyQuantity)` when
`requiredBuyQuantity` is `0`; `actualRepetitions` is therefore an
`Option Nat`, `none` standing for `NaN`. -/

/-- Result record of `calculateBxGyParams`. -/
structure BxGyParams where
  requiredBuyQuantity : Nat
  totalBuyQuantityInCart : Nat
  actualRepetitions : Option Nat
  requiredGetQuantity : Nat
deriving Repr, DecidableEq

/-- `BxGyHandler.calculateBxGyParams`. -/
def calculateBxGyParams (cart : Cart) (conditions : BxGyConditions) : BxGyParams :=
  let requiredBuyQuantity := conditions.buyProducts.foldl (fun s p => s + p.2) 0
  let totalBuyQuantityInCart := conditions.buyProducts.foldl
    (fun s p =>
      match findItem cart p.1 with
      | some cartItem => s + cartItem.quantity
      | none => s) 0
  let actualRepetitions : Option Nat :=
    if 0 < requiredBuyQuantity then
      some (min (totalBuyQuantityInCart / requiredBuyQuantity) conditions.repetitionLimit)
    else if 0 < totalBuyQuantityInCart then
      -- Math.floor(t/0) = Infinity for t > 0, and Math.min(Infinity, limit) = limit
      some conditions.repetitionLimit
    else
      -- Math.floor(0/0) = NaN, and Math.min(NaN, limit) = NaN
      none
  let requiredGetQuantity := conditions.getProducts.foldl (fun s p => s + p.2) 0
  ⟨requiredBuyQuantity, totalBuyQuantityInCart, actualRepetitions, requiredGetQuantity⟩

/-- The `for(const getProduct of conditions.getProducts)` loop of
`BxGyHandler.calculateDiscount`: threads `totalDiscount` and
`remainingFreeQuantity`, breaking when the latter is exactly `0`
(a `NaN` remainder never breaks). -/
def discountLoop (cart : Cart) :
    List (String × Nat) → MInt → MInt → MInt
  | [], totalDiscount, _ => totalDiscount
  | getProduct :: rest, totalDiscount, remainingFreeQuantity =>
      if remainingFreeQuantity = some 0 then totalDiscount
      else
        match findItem cart getProduct.1 with
        | none => discountLoop cart rest totalDiscount remainingFreeQuantity
        | some cartItem =>
            let freeQuantity :=
              remainingFreeQuantity.map (fun r => min (cartItem.quantity : Int) r)
            discountLoop cart rest
              (jsAdd totalDiscount (freeQuantity.map (· * (cartItem.price : Int))))
              (jsSub remainingFreeQuantity freeQuantity)

/-- `BxGyHandler.calculateDiscount` (the final `Math.floor` is the identity
on integers and on `NaN`). -/
def calculateDiscount (cart : Cart) (coupon : Coupon) : MInt :=
  match coupon.conditions with
  | .bxgy conditions =>
      let params := calculateBxGyParams cart conditions
      if params.actualRepetitions = some 0 then some 0
      else
        discountLoop cart conditions.getProducts (some 0)
          (params.actualRepetitions.map
            (fun n => ((n * params.requiredGetQuantity : Nat) : Int)))
  | _ => some 0

/-- Loop body of `BxGyHandler.isApplicable`. -/
def isApplicableOne (cart : Cart) (coupon : Coupon) : Option ApplicableCoupons :=
  match coupon.conditions with
  | .bxgy conditions =>
      let params := calculateBxGyParams cart conditions
      if params.totalBuyQuantityInCart < params.requiredBuyQuantity then none
      else if params.actualRepetitions = some 0 then none
      else
        let totalGetQuantityInCart := conditions.getProducts.foldl
          (fun s p =>
            match findItem cart p.1 with
            | some cartItem => s + cartItem.quantity
            | none => s) 0
        let freeQuantity : MInt := params.actualRepetitions.map
          (fun n => min (totalGetQuantityInCart : Int)
            ((n * params.requiredGetQuantity : Nat) : Int))
        if freeQuantity = some 0 then none
        else
          let discount := calculateDiscount cart coupon
          if jsLeZero discount then none
          else some ⟨coupon.id, "BxGy", discount⟩
  | _ => none

/-- `BxGyHandler.isApplicable`. -/
def isApplicable (cart : Cart) (coupons : List Coupon) : List ApplicableCoupons :=
  if cart.items.isEmpty then []
  else coupons.filterMap (isApplicableOne cart)

/-- Replace the first item with the given product id (the source mutates the
object returned by `cart.items.find(...)` in place). -/
def setFirst (pid : String) (item' : CartItem) : List CartItem → List CartItem
  | [] => []
  | i :: rest =>
      if i.product_id = pid then item' :: rest else i :: setFirst pid item' rest

/-- The get-products loop of `BxGyHandler.applyDiscount`: rewrites the
touched items while threading `totalDiscount` and `remainingFreeQuantity`. -/
def applyLoop (couponId : String) :
    List (String × Nat) → List CartItem → MInt → MInt → List CartItem × MInt
  | [], items, totalDiscount, _ => (items, totalDiscount)
  | getProduct :: rest, items, totalDiscount, remainingFreeQuantity =>
      if remainingFreeQuantity = some 0 then (items, totalDiscount)
      else
        match items.find? (fun it => it.product_id = getProduct.1) with
        | none => applyLoop couponId rest items totalDiscount remainingFreeQuantity
        | some cartItem =>
            let freeQuantity :=
              remainingFreeQuantity.map (fun r => min (cartItem.quantity : Int) r)
            let itemDiscount := freeQuantity.map (· * (cartItem.price : Int))
            let cartItem' := { cartItem with
              freeQuantity := MInt.toVal freeQuantity
              total_discount := MInt.toVal itemDiscount
              final_price :=
                MInt.toVal (jsSub (some ((cartItem.quantity * cartItem.price : Nat) : Int))
                  itemDiscount)
              appliedCouponIds := cartItem.appliedCouponIds ++ [couponId] }
            applyLoop couponId rest (setFirst getProduct.1 cartItem' items)
              (jsAdd totalDiscount itemDiscount)
              (jsSub remainingFreeQuantity freeQuantity)

/-- `BxGyHandler.applyDiscount`. -/
def applyDiscount (cart : Cart) (coupon : Coupon) : Cart :=
  match coupon.conditions with
  | .bxgy conditions =>
      let params := calculateBxGyParams cart conditions
      if params.actualRepetitions = some 0 then cart
      else
        let (items', totalDiscount) :=
          applyLoop coupon.id conditions.getProducts cart.items (some 0)
            (params.actualRepetitions.map
              (fun n => ((n * params.requiredGetQuantity : Nat) : Int)))
        { cart with
          items := items'
          discountedAmount := MInt.toVal totalDiscount
          subTotal := MInt.toVal (jsSub (some (cart.totalAmount : Int)) totalDiscount) }
  | _ => cart

end BxGyHandler

namespace CartFactory

/-- Strategy identities returned by the registry. -/
inductive StrategyTag where
  | cartS : StrategyTag
  | productS : StrategyTag
  | bxgyS : StrategyTag
deriving Repr, DecidableEq

/-- `CartFactory.getStrategy`: string-tag dispatch; an empty string is falsy
(`if(!type) return null`) and also falls through the `switch` default. -/
def getStrategy (type : String) : Option StrategyTag :=
  if type = "" then none
  else if type = "cart" then some .cartS
  else if type = "product" then some .productS
  else if type = "BxGy" then some .bxgyS
  else none

end CartFactory

/-- `strategy.isApplicable` through the registry. -/
def dispatchIsApplicable : CartFactory.StrategyTag → Cart → List Coupon → List ApplicableCoupons
  | .cartS => CartWiseHandler.isApplicable
  | .productS => ProductWiseHandler.isApplicable
  | .bxgyS => BxGyHandler.isApplicable

/-- `strategy.applyDiscount` through the registry. -/
def dispatchApplyDiscount : CartFactory.StrategyTag → Cart → Coupon → Cart
  | .cartS => CartWiseHandler.applyDiscount
  | .productS => ProductWiseHandler.applyDiscount
  | .bxgyS => BxGyHandler.applyDiscount

namespace CartService

/-- The type-tag normalisation `coupon.type === 'Product' ? 'product' : coupon.type`
performed in `findApplicableCoupons` and `applyCoupon`. -/
def normalizeType (type : String) : String :=
  if type = "Product" then "product" else type

/-- Expiry test `coupon.expiryDate && new Date(coupon.expiryDate) < new Date()`. -/
def isExpired (now : Int) (coupon : Coupon) : Bool :=
  match coupon.expiryDate with
  | some e => e < now
  | none => false

/-- Usage-limit test `coupon.usageLimit && coupon.usedCount >= coupon.usageLimit`
(`usageLimit: 0` is falsy). -/
def limitReached (coupon : Coupon) : Bool :=
  match coupon.usageLimit with
  | some l => l != 0 && decide (l ≤ coupon.usedCount)
  | none => false

/-- The status filter of `findApplicableCoupons` (active, unexpired, under
the usage limit). -/
def couponGate (now : Int) (coupon : Coupon) : Bool :=
  coupon.isActive && !isExpired now coupon && !limitReached coupon

/-- JS comparator semantics of `(a, b) => b.discount - a.discount`: `true`
when `a` may stay before `b`.  When either discount is `NaN` the comparator
result is `NaN`, which the sort treats as `0` (equal). -/
def discGe (a b : ApplicableCoupons) : Bool :=
  match a.discount, b.discount with
  | some x, some y => y ≤ x
  | _, _ => true

/-- Insert into a descending-sorted list, modelling one step of
`applicableCoupons.sort((a, b) => b.discount - a.discount)`. -/
def insertDesc (x : ApplicableCoupons) : List ApplicableCoupons → List ApplicableCoupons
  | [] => [x]
  | y :: ys => if discGe x y then x :: y :: ys else y :: insertDesc x ys

/-- The comparator sort of discovery results (any comparator-consistent sort;
the source's tie order is unspecified and not relied upon). -/
def sortDesc : List ApplicableCoupons → List ApplicableCoupons
  | [] => []
  | x :: xs => insertDesc x (sortDesc xs)

/-- `CartService.findApplicableCoupons`, as a pure function of the stored
coupon collection and the evaluation instant.  The grouping object
`{ cart: [], product: [], BxGy: [] }` keeps only the three known tags and is
traversed in insertion order; a group's registry lookup always succeeds and
an empty group contributes no candidates, exactly as skipping it. -/
def findApplicableCoupons (coupons : List Coupon) (cart : Cart) (now : Int) :
    List ApplicableCoupons :=
  let activeCoupons := coupons.filter (couponGate now)
  let cartGroup := activeCoupons.filter (fun c => normalizeType c.type = "cart")
  let productGroup := activeCoupons.filter (fun c => normalizeType c.type = "product")
  let bxgyGroup := activeCoupons.filter (fun c => normalizeType c.type = "BxGy")
  sortDesc (CartWiseHandler.isApplicable cart cartGroup ++
    ProductWiseHandler.isApplicable cart productGroup ++
    BxGyHandler.isApplicable cart bxgyGroup)

/-- The distinct errors thrown by `CartService.applyCoupon`. -/
inductive ApplyError where
  | couponNotFound : ApplyError
  | couponNotActive : ApplyError
  | couponExpired : ApplyError
  | usageLimitExceeded : ApplyError
  | invalidCouponType : ApplyError
  | couponNotApplicable : ApplyError
deriving Repr, DecidableEq

/-- `CartService.getCouponById` over the modelled store. -/
def getCouponById (store : List Coupon) (id : String) : Option Coupon :=
  store.find? (fun c => c.id = id)

/-- `CartService.updateCoupon`: returns the store unchanged when the id is
absent, otherwise stores the new value under that id. -/
def updateCoupon (store : List Coupon) (id : String) (coupon : Coupon) : List Coupon :=
  match getCouponById store id with
  | none => store
  | some _ => store.map (fun c => if c.id = id then coupon else c)

end CartService

deriving instance DecidableEq for Except

namespace CartService

/-- Outcome of one `applyCoupon` call: the thrown error or returned cart,
together with the cart object and the store after the call (capturing which
failures leave them untouched). -/
structure ApplyOutcome where
  result : Except ApplyError Cart
  cartAfter : Cart
  storeAfter : List Coupon
deriving Repr, DecidableEq

/-- `CartService.applyCoupon`. -/
def applyCoupon (store : List Coupon) (cart : Cart) (couponId : String)
    (now : Int) : ApplyOutcome :=
  match getCouponById store couponId with
  | none => ⟨.error .couponNotFound, cart, store⟩
  | some coupon =>
      if !coupon.isActive then ⟨.error .couponNotActive, cart, store⟩
      else if isExpired now coupon then ⟨.error .couponExpired, cart, store⟩
      else if limitReached coupon then ⟨.error .usageLimitExceeded, cart, store⟩
      else
        match CartFactory.getStrategy (normalizeType coupon.type) with
        | none => ⟨.error .invalidCouponType, cart, store⟩
        | some strategy =>
            if (dispatchIsApplicable strategy cart [coupon]).isEmpty then
              ⟨.error .couponNotApplicable, cart, store⟩
            else
              let updatedCart := dispatchApplyDiscount strategy cart coupon
              let coupon' := { coupon with usedCount := coupon.usedCount + 1 }
              ⟨.ok updatedCart, updatedCart, updateCoupon store couponId coupon'⟩

end CartService

/-! ## Concrete instances used by the theorems and witnesses -/

/-- Scenario A cart: one item, total amount 500. -/
def scenarioACart : Cart :=
  { items := [{ product_id := "P1", quantity := 1, price := 500 }]
    totalAmount := 500 }

/-- Scenario A coupon: CartWide, 10 percent, no cap. -/
def scenarioACoupon : Coupon :=
  { id := "CW10", name := "10 percent off", type := "cart", isActive := true
    usedCount := 0
    conditions := .cartWise { minCartValue := 0 }
    discountDetails := .percentage 10 none }

/-- A cart with total amount 300. -/
def smallCart : Cart :=
  { items := [{ product_id := "P1", quantity := 1, price := 300 }]
    totalAmount := 300 }

/-- A CartWide coupon with a fixed discount of 500. -/
def fixed500Coupon : Coupon :=
  { id := "F500", name := "500 off", type := "cart", isActive := true
    usedCount := 0
    conditions := .cartWise { minCartValue := 0 }
    discountDetails := .fixed 500 }

/-- Scenario C cart: one item, quantity 1, price 50000, category Electronics. -/
def scenarioCCart : Cart :=
  { items := [{ product_id := "LAPTOP_001", quantity := 1, price := 50000
                category := some "Electronics" }]
    totalAmount := 50000 }

/-- Scenario C coupon: ProductScoped, 20 percent, scoped to category
Electronics (no product-id list). -/
def scenarioCCoupon : Coupon :=
  { id := "PC20", name := "20 percent Electronics", type := "Product"
    isActive := true, usedCount := 0
    conditions := .productWise { categories := some ["Electronics"] }
    discountDetails := .percentage 20 none }

/-- Scenario D cart: A times 5 and B times 1, price of B is 100. -/
def scenarioDCart : Cart :=
  { items := [{ product_id := "A", quantity := 5, price := 30 },
              { product_id := "B", quantity := 1, price := 100 }]
    totalAmount := 250 }

/-- Scenario D conditions: buy 2 of A, get 1 of B, repetition limit 2. -/
def scenarioDConditions : BxGyConditions :=
  { buyProducts := [("A", 2)], getProducts := [("B", 1)], repetitionLimit := 2 }

/-- Scenario D coupon. -/
def scenarioDCoupon : Coupon :=
  { id := "BD", name := "buy 2 A get 1 B", type := "BxGy", isActive := true
    usedCount := 0
    conditions := .bxgy scenarioDConditions
    discountDetails := .fixed 0 }

/-- BxGy conditions whose buy quantities sum to zero. -/
def zeroBuyConditions : BxGyConditions :=
  { buyProducts := [("A", 0)], getProducts := [("B", 1)], repetitionLimit := 1 }

/-- A BxGy coupon whose buy-requirement quantities sum to zero. -/
def zeroBuyCoupon : Coupon :=
  { id := "BZ", name := "zero buy", type := "BxGy", isActive := true
    usedCount := 0
    conditions := .bxgy zeroBuyConditions
    discountDetails := .fixed 0 }

/-- Cart containing both products of `zeroBuyConditions`. -/
def zeroBuyCart : Cart :=
  { items := [{ product_id := "A", quantity := 1, price := 10 },
              { product_id := "B", quantity := 1, price := 10 }]
    totalAmount := 20 }

/-! ## Claims C1, C2, C4, C7 -/

/-- Claim C1: the claim states that a percentage CartWide discount is
`floor(totalAmount * rate / 100)`, so a cart with total 500 under a 10
percent coupon gets discount 50 and subtotal 450.  The code instead
computes `Math.floor(cart.totalAmount / 100)` — the rate is never read —
returning 5 and subtotal 495 on that input, contradicting the repository's
own README (`Cart of Rs. 500 gets Rs. 50 discount`). -/
theorem cartwise_percentage_ignores_rate :
    CartWiseHandler.calculateDiscount scenarioACart scenarioACoupon = 5 ∧
    CartWiseHandler.calculateDiscount scenarioACart scenarioACoupon ≠
      (500 * 10 / 100 : Int) ∧
    (CartWiseHandler.applyDiscount scenarioACart scenarioACoupon).subTotal =
      .num 495 := by
  refine ⟨rfl, by decide, rfl⟩

/-- Claim C2: the claim states `0 ≤ calculateDiscount ≤` the cart total for
CartWide, a fixed discount larger than the cart total being clamped.  The
code never clamps a fixed discount: on a cart with total 300 and a fixed
discount of 500 it returns 500 and application records subtotal -200,
contradicting the README (`a Rs. 500 discount on Rs. 300 cart results in
Rs. 300 discount`). -/
theorem cartwise_fixed_discount_not_clamped :
    CartWiseHandler.calculateDiscount smallCart fixed500Coupon = 500 ∧
    (smallCart.totalAmount : Int) <
      CartWiseHandler.calculateDiscount smallCart fixed500Coupon ∧
    (CartWiseHandler.applyDiscount smallCart fixed500Coupon).subTotal =
      .num (-200) := by
  refine ⟨rfl, by decide, rfl⟩

/-- Claim C4: the claim states a cart item matches a ProductScoped coupon by
product-id membership OR category membership, so Scenario C (one Electronics
item, a 20 percent coupon scoped to category Electronics) yields discount
10000.  The repository's `productwise.handler.ts` matches by product id
only — the category set is never consulted — so the Scenario C coupon is
not applicable there and its discount is 0; the other revision of the
handler in the sources (and the README's category-based case) computes
10000 as the claim states. -/
theorem productwise_ignores_categories :
    ProductWiseHandler.isApplicable scenarioCCart [scenarioCCoupon] = [] ∧
    ProductWiseHandler.calculateDiscount scenarioCCart scenarioCCoupon = 0 ∧
    ProductWiseHandlerRev.calculateDiscount scenarioCCart scenarioCCoupon = 10000 ∧
    ProductWiseHandlerRev.isApplicable scenarioCCart [scenarioCCoupon] =
      [⟨"PC20", "product", some 10000⟩] := by
  refine ⟨rfl, rfl, rfl, rfl⟩

/-- Claim C7: the claim states a BuyXGetY coupon whose buy-requirement
quantities sum to zero is treated as not applicable.  In the code
`Math.floor(totalBuyQtyInCart / 0)` is `Infinity` when a buy-entry product
is present in the cart, so `actualRepetitions` becomes the repetition limit
and `isApplicable` returns the coupon as an applicable candidate (here with
discount 10). -/
theorem bxgy_zero_buy_requirement_is_applicable :
    (BxGyHandler.calculateBxGyParams zeroBuyCart zeroBuyConditions).requiredBuyQuantity
      = 0 ∧
    (BxGyHandler.calculateBxGyParams zeroBuyCart zeroBuyConditions).actualRepetitions
      = some 1 ∧
    BxGyHandler.isApplicable zeroBuyCart [zeroBuyCoupon] =
      [⟨"BZ", "BxGy", some 10⟩] := by
  refine ⟨rfl, rfl, rfl⟩

/-! ## Claim C3: the BxGy discount algorithm against the spec's description -/

/-- Quantity of a product present in the cart, 0 if absent (the spec's
`that item's quantity present in cart`). -/
def qtyInCart (cart : Cart) (pid : String) : Nat :=
  match findItem cart pid with
  | some item => item.quantity
  | none => 0

/-- Unit price of a product in the cart, 0 if absent. -/
def priceInCart (cart : Cart) (pid : String) : Nat :=
  match findItem cart pid with
  | some item => item.price
  | none => 0

/-- Spec-side distribution of the free entitlement over the get entries in
their declared order: each entry is granted `min(remaining entitlement,
that item's quantity present in cart)` and contributes `grant * unitPrice`
to the discount. -/
def specDistribute (cart : Cart) : List (String × Nat) → Nat → Nat
  | [], _ => 0
  | g :: gs, remaining =>
      let grant := min remaining (qtyInCart cart g.1)
      grant * priceInCart cart g.1 + specDistribute cart gs (remaining - grant)

/-- Spec-side BxGy discount: `actualRepetitions = min(floor(totalBuyQtyInCart
/ requiredBuyQty), repetitionLimit)`, entitlement `actualRepetitions *`
(sum of get-entry quantities), distributed over the get entries in order. -/
def specBxGyDiscount (cart : Cart) (conds : BxGyConditions) : Nat :=
  let requiredBuyQty := (conds.buyProducts.map (fun p => p.2)).sum
  let totalBuyQtyInCart := (conds.buyProducts.map (fun p => qtyInCart cart p.1)).sum
  let actualRepetitions := min (totalBuyQtyInCart / requiredBuyQty) conds.repetitionLimit
  let entitlement := actualRepetitions * (conds.getProducts.map (fun p => p.2)).sum
  specDistribute cart conds.getProducts entitlement

theorem foldl_snd_eq (l : List (String × Nat)) (a : Nat) :
    l.foldl (fun s p => s + p.2) a = a + (l.map (fun p => p.2)).sum := by
  induction l generalizing a with
  | nil => simp
  | cons x xs ih => simp [ih, Nat.add_assoc]

theorem foldl_qty_eq (cart : Cart) (l : List (String × Nat)) (a : Nat) :
    l.foldl (fun s p =>
      match findItem cart p.1 with
      | some cartItem => s + cartItem.quantity
      | none => s) a = a + (l.map (fun p => qtyInCart cart p.1)).sum := by
  induction l generalizing a with
  | nil => simp
  | cons x xs ih =>
      rw [List.foldl_cons, ih, List.map_cons, List.sum_cons]
      unfold qtyInCart
      cases findItem cart x.1
      · dsimp only
        omega
      · dsimp only
        ring_nf

theorem specDistribute_zero (cart : Cart) (gs : List (String × Nat)) :
    specDistribute cart gs 0 = 0 := by
  induction gs with
  | nil => rfl
  | cons g gs ih => simp [specDistribute, ih]

theorem discountLoop_some (cart : Cart) (gs : List (String × Nat)) (t : Int)
    (r : Nat) :
    BxGyHandler.discountLoop cart gs (some t) (some (r : Int)) =
      some (t + (specDistribute cart gs r : Nat)) := by
  induction gs generalizing t r with
  | nil => simp [BxGyHandler.discountLoop, specDistribute]
  | cons g gs ih =>
      by_cases hr : r = 0
      · subst hr
        simp [BxGyHandler.discountLoop, specDistribute, specDistribute_zero]
      · have hr' : some ((r : Nat) : Int) ≠ some (0 : Int) := by
          simp [Int.natCast_ne_zero.mpr hr]
        unfold BxGyHandler.discountLoop
        rw [if_neg hr']
        cases hfind : findItem cart g.1 with
        | none =>
            rw [ih]
            have hq : qtyInCart cart g.1 = 0 := by unfold qtyInCart; rw [hfind]
            simp [specDistribute, hq]
        | some item =>
            have hq : qtyInCart cart g.1 = item.quantity := by
              unfold qtyInCart; rw [hfind]
            have hp : priceInCart cart g.1 = item.price := by
              unfold priceInCart; rw [hfind]
            have hmin : (item.quantity : Int) ⊓ (r : Int) =
                ((min item.quantity r : Nat) : Int) := by
              rw [Nat.cast_min]
            have hsub : (r : Int) - ((min item.quantity r : Nat) : Int) =
                (((r - min item.quantity r) : Nat) : Int) := by
              have h1 : min item.quantity r ≤ r := Nat.min_le_right _ _
              omega
            simp only [Option.map_some', jsAdd, jsSub]
            rw [hmin, hsub, ih]
            simp only [specDistribute, hq, hp]
            rw [Nat.min_comm r item.quantity]
            push_cast
            ring_nf

theorem calculateBxGyParams_eq (cart : Cart) (conds : BxGyConditions) :
    BxGyHandler.calculateBxGyParams cart conds =
      { requiredBuyQuantity := (conds.buyProducts.map (fun p => p.2)).sum
        totalBuyQuantityInCart :=
          (conds.buyProducts.map (fun p => qtyInCart cart p.1)).sum
        actualRepetitions :=
          if 0 < (conds.buyProducts.map (fun p => p.2)).sum then
            some (min ((conds.buyProducts.map (fun p => qtyInCart cart p.1)).sum /
              (conds.buyProducts.map (fun p => p.2)).sum) conds.repetitionLimit)
          else if 0 < (conds.buyProducts.map (fun p => qtyInCart cart p.1)).sum then
            some conds.repetitionLimit
          else none
        requiredGetQuantity := (conds.getProducts.map (fun p => p.2)).sum } := by
  unfold BxGyHandler.calculateBxGyParams
  have h1 := foldl_snd_eq conds.buyProducts 0
  have h2 := foldl_qty_eq cart conds.buyProducts 0
  have h3 := foldl_snd_eq conds.getProducts 0
  simp only [Nat.zero_add] at h1 h2 h3
  rw [h1, h2, h3]

/-- Claim C3: for every cart and BuyXGetY coupon with positive total buy
requirement, the handler computes `actualRepetitions =
min(floor(totalBuyQtyInCart / requiredBuyQty), repetitionLimit)` and its
discount equals the spec's algorithm: the entitlement `actualRepetitions *`
(sum of get quantities) distributed over the get entries in declared order,
each granted `min(remaining, quantity in cart)`, discount summing
`grant * unitPrice`. -/
theorem bxgy_discount_matches_spec (cart : Cart) (coupon : Coupon)
    (conds : BxGyConditions) (hc : coupon.conditions = .bxgy conds)
    (hbuy : 0 < (conds.buyProducts.map (fun p => p.2)).sum) :
    (BxGyHandler.calculateBxGyParams cart conds).actualRepetitions =
      some (min ((conds.buyProducts.map (fun p => qtyInCart cart p.1)).sum /
        (conds.buyProducts.map (fun p => p.2)).sum) conds.repetitionLimit) ∧
    BxGyHandler.calculateDiscount cart coupon =
      some (specBxGyDiscount cart conds) := by
  have hp := calculateBxGyParams_eq cart conds
  constructor
  · rw [hp]
    simp [if_pos hbuy]
  · simp only [BxGyHandler.calculateDiscount, hc]
    rw [hp]
    simp only [if_pos hbuy]
    by_cases hn :
        min ((conds.buyProducts.map (fun p => qtyInCart cart p.1)).sum /
          (conds.buyProducts.map (fun p => p.2)).sum) conds.repetitionLimit = 0
    · rw [hn]
      simp [specBxGyDiscount, hn, specDistribute_zero]
    · rw [if_neg (by simp [hn])]
      simp only [Option.map_some']
      rw [discountLoop_some]
      simp [specBxGyDiscount]

/-- Witness for claim C3 at Scenario D: buy 2 of A / get 1 of B with
repetition limit 2, cart has A times 5 and B times 1 — the discount is
price(B) * 1 = 100 and item B is granted free quantity 1. -/
theorem bxgy_discount_matches_spec_witness :
    0 < (scenarioDConditions.buyProducts.map (fun p => p.2)).sum ∧
    BxGyHandler.calculateDiscount scenarioDCart scenarioDCoupon = some 100 ∧
    ((BxGyHandler.applyDiscount scenarioDCart scenarioDCoupon).items.map
      (fun i => i.freeQuantity)) = [.undef, .num 1] :=
  ⟨by decide,
   ((bxgy_discount_matches_spec scenarioDCart scenarioDCoupon scenarioDConditions
      rfl (by decide)).2).trans (by decide),
   by decide⟩

/-- Claim C5: `applyCoupon` fails with a distinct error when the named
coupon is absent, inactive, expired, at or over its usage limit, of
unrecognized type, or fails the cart-fit re-validation (`isApplicable` on
the singleton list returning empty); every such failure leaves the cart and
the store untouched; on success `applyDiscount` is invoked exactly once —
the returned cart is the result of one invocation — and the coupon is
persisted with `usedCount` incremented by one. -/
theorem applyCoupon_cases (store : List Coupon) (cart : Cart)
    (couponId : String) (now : Int) :
    (CartService.getCouponById store couponId = none →
      CartService.applyCoupon store cart couponId now =
        ⟨.error .couponNotFound, cart, store⟩) ∧
    (∀ coupon, CartService.getCouponById store couponId = some coupon →
      (coupon.isActive = false →
        CartService.applyCoupon store cart couponId now =
          ⟨.error .couponNotActive, cart, store⟩) ∧
      (coupon.isActive = true → CartService.isExpired now coupon = true →
        CartService.applyCoupon store cart couponId now =
          ⟨.error .couponExpired, cart, store⟩) ∧
      (coupon.isActive = true → CartService.isExpired now coupon = false →
        CartService.limitReached coupon = true →
        CartService.applyCoupon store cart couponId now =
          ⟨.error .usageLimitExceeded, cart, store⟩) ∧
      (coupon.isActive = true → CartService.isExpired now coupon = false →
        CartService.limitReached coupon = false →
        CartFactory.getStrategy (CartService.normalizeType coupon.type) = none →
        CartService.applyCoupon store cart couponId now =
          ⟨.error .invalidCouponType, cart, store⟩) ∧
      (∀ strategy, coupon.isActive = true →
        CartService.isExpired now coupon = false →
        CartService.limitReached coupon = false →
        CartFactory.getStrategy (CartService.normalizeType coupon.type) =
          some strategy →
        dispatchIsApplicable strategy cart [coupon] = [] →
        CartService.applyCoupon store cart couponId now =
          ⟨.error .couponNotApplicable, cart, store⟩) ∧
      (∀ strategy, coupon.isActive = true →
        CartService.isExpired now coupon = false →
        CartService.limitReached coupon = false →
        CartFactory.getStrategy (CartService.normalizeType coupon.type) =
          some strategy →
        dispatchIsApplicable strategy cart [coupon] ≠ [] →
        CartService.applyCoupon store cart couponId now =
          ⟨.ok (dispatchApplyDiscount strategy cart coupon),
           dispatchApplyDiscount strategy cart coupon,
           CartService.updateCoupon store couponId
             { coupon with usedCount := coupon.usedCount + 1 }⟩)) := by
  constructor
  · intro h
    simp [CartService.applyCoupon, h]
  · intro coupon hfind
    refine ⟨?_, ?_, ?_, ?_, ?_, ?_⟩
    · intro h
      simp [CartService.applyCoupon, hfind, h]
    · intro h1 h2
      simp [CartService.applyCoupon, hfind, h1, h2]
    · intro h1 h2 h3
      simp [CartService.applyCoupon, hfind, h1, h2, h3]
    · intro h1 h2 h3 h4
      simp [CartService.applyCoupon, hfind, h1, h2, h3, h4]
    · intro strategy h1 h2 h3 h4 h5
      simp [CartService.applyCoupon, hfind, h1, h2, h3, h4, h5]
    · intro strategy h1 h2 h3 h4 h5
      simp [CartService.applyCoupon, hfind, h1, h2, h3, h4,
        List.isEmpty_iff, h5]

/-- An expired CartWide coupon, for Scenario E. -/
def expiredCoupon : Coupon :=
  { fixed500Coupon with id := "E1", expiryDate := some 5 }

/-- Witness for claim C5 (Scenario E): applying a coupon past its expiry
instant fails with the expiry error and leaves the cart and the store
untouched. -/
theorem applyCoupon_cases_witness :
    CartService.applyCoupon [expiredCoupon] smallCart "E1" 10 =
      ⟨.error .couponExpired, smallCart, [expiredCoupon]⟩ :=
  (((applyCoupon_cases [expiredCoupon] smallCart "E1" 10).2 expiredCoupon
    (by decide)).2.1) rfl rfl

/-- Claim C10: during discovery a coupon that passes the status gate but
whose type tag is not recognized (`cart`, `Product`/`product`, `BxGy`) is
silently dropped at the grouping step — the result is the same as if the
coupon were not stored at all, and no error is raised (discovery is total). -/
theorem unrecognized_type_dropped (cart : Cart) (now : Int)
    (pre post : List Coupon) (c : Coupon)
    (hgate : CartService.couponGate now c = true)
    (h1 : c.type ≠ "cart") (h2 : c.type ≠ "Product")
    (h3 : c.type ≠ "product") (h4 : c.type ≠ "BxGy") :
    CartService.findApplicableCoupons (pre ++ c :: post) cart now =
      CartService.findApplicableCoupons (pre ++ post) cart now := by
  have hnorm : CartService.normalizeType c.type = c.type := by
    unfold CartService.normalizeType
    rw [if_neg h2]
  have hfilters : ∀ p : Coupon → Bool, p c = false →
      ((pre ++ c :: post).filter (CartService.couponGate now)).filter p =
      ((pre ++ post).filter (CartService.couponGate now)).filter p := by
    intro p hpc
    simp [List.filter_append, List.filter_cons, hgate, hpc]
  simp only [CartService.findApplicableCoupons]
  rw [hfilters _ (by simp [hnorm, h1]), hfilters _ (by simp [hnorm, h3]),
    hfilters _ (by simp [hnorm, h4])]

/-- A gate-passing coupon with an unrecognized type tag. -/
def weirdTypeCoupon : Coupon :=
  { id := "W1", name := "weird", type := "weird", isActive := true
    usedCount := 0
    conditions := .cartWise { minCartValue := 0 }
    discountDetails := .fixed 50 }

/-- Witness for claim C10: a stored coupon of type `weird` contributes
nothing to discovery. -/
theorem unrecognized_type_dropped_witness :
    CartService.couponGate 0 weirdTypeCoupon = true ∧
    CartService.findApplicableCoupons [weirdTypeCoupon, scenarioACoupon]
        scenarioACart 0 =
      CartService.findApplicableCoupons [scenarioACoupon] scenarioACart 0 :=
  ⟨by decide,
   unrecognized_type_dropped scenarioACart 0 [] [scenarioACoupon]
     weirdTypeCoupon (by decide) (by decide) (by decide) (by decide)
     (by decide)⟩

/-! ## Claim C6: discovery pipeline -/

/-- Candidate `a` ranks at least as high as `b`: whenever both discounts
are finite they are in descending order. -/
def rankedGe (a b : ApplicableCoupons) : Prop :=
  ∀ x y, a.discount = some x → b.discount = some y → y ≤ x

theorem insertDesc_perm (x : ApplicableCoupons) (l : List ApplicableCoupons) :
    List.Perm (CartService.insertDesc x l) (x :: l) := by
  induction l with
  | nil => simp [CartService.insertDesc]
  | cons y ys ih =>
      unfold CartService.insertDesc
      split
      · exact List.Perm.refl _
      · exact (ih.cons y).trans (List.Perm.swap x y ys)

theorem sortDesc_perm (l : List ApplicableCoupons) :
    List.Perm (CartService.sortDesc l) l := by
  induction l with
  | nil => simp [CartService.sortDesc]
  | cons x xs ih =>
      exact (insertDesc_perm x (CartService.sortDesc xs)).trans (ih.cons x)

theorem discGe_false_ranked {x y : ApplicableCoupons}
    (h : CartService.discGe x y = false) : rankedGe y x := by
  intro a b ha hb
  unfold CartService.discGe at h
  rw [hb, ha] at h
  simp at h
  omega

theorem discGe_true_ranked {x y : ApplicableCoupons}
    (h : CartService.discGe x y = true) : rankedGe x y := by
  intro a b ha hb
  unfold CartService.discGe at h
  rw [ha, hb] at h
  simpa using h

theorem rankedGe_trans {x y z : ApplicableCoupons}
    (hy : y.discount.isSome) (h1 : rankedGe x y) (h2 : rankedGe y z) :
    rankedGe x z := by
  intro a c ha hc
  obtain ⟨b, hb⟩ := Option.isSome_iff_exists.mp hy
  exact le_trans (h2 b c hb hc) (h1 a b ha hb)

theorem insertDesc_sorted (x : ApplicableCoupons) (l : List ApplicableCoupons)
    (hx : x.discount.isSome) (hl : ∀ y ∈ l, y.discount.isSome)
    (h : l.Pairwise rankedGe) :
    (CartService.insertDesc x l).Pairwise rankedGe := by
  induction l with
  | nil => simp [CartService.insertDesc]
  | cons y ys ih =>
      unfold CartService.insertDesc
      split
      · rename_i hge
        refine List.Pairwise.cons ?_ h
        intro b hb
        rcases List.mem_cons.mp hb with hb | hb
        · subst hb
          exact discGe_true_ranked hge
        · exact rankedGe_trans (hl y (by simp)) (discGe_true_ranked hge)
            ((List.pairwise_cons.mp h).1 b hb)
      · rename_i hge
        have hge' : CartService.discGe x y = false := by
          simpa using hge
        refine List.Pairwise.cons ?_ (ih (fun b hb => hl b (by simp [hb]))
          (List.pairwise_cons.mp h).2)
        intro b hb
        rcases List.mem_cons.mp ((insertDesc_perm x ys).subset hb) with hb | hb
        · subst hb
          exact discGe_false_ranked hge'
        · exact (List.pairwise_cons.mp h).1 b hb

theorem sortDesc_sorted (l : List ApplicableCoupons)
    (hl : ∀ y ∈ l, y.discount.isSome) :
    (CartService.sortDesc l).Pairwise rankedGe := by
  induction l with
  | nil => simp [CartService.sortDesc]
  | cons x xs ih =>
      refine insertDesc_sorted x _ (hl x (by simp)) ?_
        (ih (fun y hy => hl y (by simp [hy])))
      intro y hy
      exact hl y (by simp [(sortDesc_perm xs).subset hy])

theorem cartwise_one_shape (cart : Cart) (c : Coupon) (a : ApplicableCoupons)
    (h : CartWiseHandler.isApplicableOne cart c = some a) :
    a.discount.isSome := by
  unfold CartWiseHandler.isApplicableOne at h
  split at h
  · simp only [] at h
    split at h
    · exact absurd h (by simp)
    · split at h
      · exact absurd h (by simp)
      · split at h
        · exact absurd h (by simp)
        · split at h
          · exact absurd h (by simp)
          · cases h
            simp
  · exact absurd h (by simp)

theorem productwise_one_shape (cart : Cart) (c : Coupon) (a : ApplicableCoupons)
    (h : ProductWiseHandler.isApplicableOne cart c = some a) :
    a.discount.isSome := by
  unfold ProductWiseHandler.isApplicableOne at h
  split at h
  · simp only [] at h
    split at h
    · exact absurd h (by simp)
    · split at h
      · exact absurd h (by simp)
      · split at h
        · exact absurd h (by simp)
        · cases h
          simp
  · exact absurd h (by simp)

theorem bxgy_calculateDiscount_isSome (cart : Cart) (coupon : Coupon)
    (conds : BxGyConditions) (hc : coupon.conditions = .bxgy conds)
    (hbuy : 0 < (conds.buyProducts.map (fun p => p.2)).sum) :
    (BxGyHandler.calculateDiscount cart coupon).isSome := by
  simp only [BxGyHandler.calculateDiscount, hc]
  rw [calculateBxGyParams_eq]
  simp only [if_pos hbuy]
  by_cases hn :
      min ((conds.buyProducts.map (fun p => qtyInCart cart p.1)).sum /
        (conds.buyProducts.map (fun p => p.2)).sum) conds.repetitionLimit = 0
  · rw [hn]
    simp
  · rw [if_neg (by simp [hn])]
    simp only [Option.map_some']
    rw [discountLoop_some]
    simp

theorem bxgy_one_shape (cart : Cart) (c : Coupon) (a : ApplicableCoupons)
    (conds : BxGyConditions) (hcond : c.conditions = .bxgy conds)
    (h : BxGyHandler.isApplicableOne cart c = some a) :
    a.discount = BxGyHandler.calculateDiscount cart c := by
  simp only [BxGyHandler.isApplicableOne, hcond] at h
  split at h
  · exact absurd h (by simp)
  · split at h
    · exact absurd h (by simp)
    · split at h
      · exact absurd h (by simp)
      · split at h
        · exact absurd h (by simp)
        · cases h
          rfl

theorem cartwise_candidate_isSome (cart : Cart) (coupons : List Coupon) :
    ∀ a ∈ CartWiseHandler.isApplicable cart coupons, a.discount.isSome := by
  intro a ha
  unfold CartWiseHandler.isApplicable at ha
  split at ha
  · simp at ha
  · obtain ⟨c, _, hone⟩ := List.mem_filterMap.mp ha
    exact cartwise_one_shape cart c a hone

theorem productwise_candidate_isSome (cart : Cart) (coupons : List Coupon) :
    ∀ a ∈ ProductWiseHandler.isApplicable cart coupons, a.discount.isSome := by
  intro a ha
  unfold ProductWiseHandler.isApplicable at ha
  split at ha
  · simp at ha
  · obtain ⟨c, _, hone⟩ := List.mem_filterMap.mp ha
    exact productwise_one_shape cart c a hone

theorem bxgy_candidate_isSome (cart : Cart) (coupons : List Coupon)
    (hbx : ∀ c ∈ coupons, ∀ conds, c.conditions = .bxgy conds →
      0 < (conds.buyProducts.map (fun p => p.2)).sum) :
    ∀ a ∈ BxGyHandler.isApplicable cart coupons, a.discount.isSome := by
  intro a ha
  unfold BxGyHandler.isApplicable at ha
  split at ha
  · simp at ha
  · obtain ⟨c, hcmem, hone⟩ := List.mem_filterMap.mp ha
    cases hcond : c.conditions with
    | bxgy conds =>
        rw [bxgy_one_shape cart c a conds hcond hone]
        exact bxgy_calculateDiscount_isSome cart c conds hcond
          (hbx c hcmem conds hcond)
    | cartWise conds => simp [BxGyHandler.isApplicableOne, hcond] at hone
    | productWise conds => simp [BxGyHandler.isApplicableOne, hcond] at hone

theorem couponGate_iff (now : Int) (c : Coupon) (hwf : c.usageLimit ≠ some 0) :
    CartService.couponGate now c = true ↔
      (c.isActive = true ∧ (∀ e, c.expiryDate = some e → ¬ e < now) ∧
       (∀ l, c.usageLimit = some l → c.usedCount < l)) := by
  unfold CartService.couponGate CartService.isExpired CartService.limitReached
  cases hE : c.expiryDate with
  | none =>
      cases hL : c.usageLimit with
      | none => simp
      | some l =>
          have hl0 : l ≠ 0 := fun h => hwf (by rw [hL, h])
          simp [hl0, Nat.not_le]
  | some e =>
      cases hL : c.usageLimit with
      | none => simp [not_lt]
      | some l =>
          have hl0 : l ≠ 0 := fun h => hwf (by rw [hL, h])
          simp [hl0, Nat.not_le, not_lt]
          tauto

/-- The per-type-group candidate lists of discovery, concatenated in the
grouping object's insertion order (cart, product, BxGy), before the final
sort. -/
def groupedCandidates (coupons : List Coupon) (cart : Cart) (now : Int) :
    List ApplicableCoupons :=
  let activeCoupons := coupons.filter (CartService.couponGate now)
  CartWiseHandler.isApplicable cart
      (activeCoupons.filter (fun c => CartService.normalizeType c.type = "cart")) ++
    ProductWiseHandler.isApplicable cart
      (activeCoupons.filter (fun c => CartService.normalizeType c.type = "product")) ++
    BxGyHandler.isApplicable cart
      (activeCoupons.filter (fun c => CartService.normalizeType c.type = "BxGy"))

/-- Claim C6: `findApplicableCoupons` first excludes exactly the coupons
that are inactive, expired at the evaluation instant, or whose used count
has reached their usage limit; the survivors are grouped by type tag and
dispatched to their strategy's `isApplicable`; all candidates are
concatenated and the returned list is that concatenation sorted by discount
amount in descending order.  The usage-limit hypothesis reflects the
creation schema (a stored `usageLimit` is a positive integer); the
buy-quantity hypothesis keeps BxGy discounts finite so that descending
order is meaningful. -/
theorem findApplicableCoupons_spec (coupons : List Coupon) (cart : Cart)
    (now : Int)
    (hwf : ∀ c ∈ coupons, c.usageLimit ≠ some 0)
    (hbx : ∀ c ∈ coupons, ∀ conds, c.conditions = .bxgy conds →
      0 < (conds.buyProducts.map (fun p => p.2)).sum) :
    (∀ c ∈ coupons,
      (CartService.couponGate now c = true ↔
        (c.isActive = true ∧ (∀ e, c.expiryDate = some e → ¬ e < now) ∧
         (∀ l, c.usageLimit = some l → c.usedCount < l)))) ∧
    CartService.findApplicableCoupons coupons cart now =
      CartService.sortDesc (groupedCandidates coupons cart now) ∧
    List.Perm (CartService.findApplicableCoupons coupons cart now)
      (groupedCandidates coupons cart now) ∧
    (CartService.findApplicableCoupons coupons cart now).Pairwise rankedGe := by
  have hmem : ∀ a ∈ groupedCandidates coupons cart now, a.discount.isSome := by
    intro a ha
    simp only [groupedCandidates, List.mem_append] at ha
    rcases ha with (ha | ha) | ha
    · exact cartwise_candidate_isSome _ _ a ha
    · exact productwise_candidate_isSome _ _ a ha
    · refine bxgy_candidate_isSome cart _ ?_ a ha
      intro c hcmem conds hcond
      exact hbx c (List.mem_filter.mp (List.mem_filter.mp hcmem).1).1 conds hcond
  exact ⟨fun c hc => couponGate_iff now c (hwf c hc), rfl, sortDesc_perm _,
    sortDesc_sorted _ hmem⟩

/-- Witness for claim C6 on a concrete two-coupon store. -/
theorem findApplicableCoupons_spec_witness :
    CartService.findApplicableCoupons [scenarioACoupon, fixed500Coupon]
        scenarioACart 0 =
      CartService.sortDesc (groupedCandidates [scenarioACoupon, fixed500Coupon]
        scenarioACart 0) ∧
    (CartService.findApplicableCoupons [scenarioACoupon, fixed500Coupon]
        scenarioACart 0).Pairwise rankedGe := by
  have h := findApplicableCoupons_spec [scenarioACoupon, fixed500Coupon]
    scenarioACart 0
    (by intro c hc; fin_cases hc <;> simp [scenarioACoupon, fixed500Coupon])
    (by
      intro c hc conds hcond
      fin_cases hc <;> simp [scenarioACoupon, fixed500Coupon] at hcond)
  exact ⟨h.2.1, h.2.2.2⟩

/-! ## Claim C8: invariants after applyDiscount -/

theorem setFirst_mem (pid : String) (a : CartItem) :
    ∀ (l : List CartItem), ∀ x ∈ BxGyHandler.setFirst pid a l, x = a ∨ x ∈ l := by
  intro l
  induction l with
  | nil => intro x hx; simp [BxGyHandler.setFirst] at hx
  | cons i rest ih =>
      intro x hx
      unfold BxGyHandler.setFirst at hx
      split at hx
      · rcases List.mem_cons.mp hx with hx | hx
        · exact Or.inl hx
        · exact Or.inr (List.mem_cons_of_mem _ hx)
      · rcases List.mem_cons.mp hx with hx | hx
        · exact Or.inr (by simp [hx])
        · rcases ih x hx with hx | hx
          · exact Or.inl hx
          · exact Or.inr (List.mem_cons_of_mem _ hx)

/-- A ProductScoped coupon keyed by product id, matching the Scenario C
cart item. -/
def laptopIdCoupon : Coupon :=
  { id := "PID20", name := "20 percent laptop", type := "Product"
    isActive := true, usedCount := 0
    conditions := .productWise { productIds := some ["LAPTOP_001"] }
    discountDetails := .percentage 20 none }

/-! ## Claim C9: applyDiscount invoked twice -/

/-- A CartWide coupon with a fixed discount of 50. -/
def fixed50Coupon : Coupon :=
  { id := "F50", name := "50 off", type := "cart", isActive := true
    usedCount := 0
    conditions := .cartWise { minCartValue := 0 }
    discountDetails := .fixed 50 }

/-- Counterexample to claim C9: on a cart with total 500 and a fixed
discount of 50 (a strictly positive realized discount), a second
`applyDiscount` leaves `discountedAmount` at 50 — the cart does not end up
recording twice the discount of a single invocation. -/
theorem cartwise_applyDiscount_twice_not_doubled :
    0 < CartWiseHandler.calculateDiscount scenarioACart fixed50Coupon ∧
    (CartWiseHandler.applyDiscount (CartWiseHandler.applyDiscount scenarioACart
      fixed50Coupon) fixed50Coupon).discountedAmount = .num 50 ∧
    (CartWiseHandler.applyDiscount (CartWiseHandler.applyDiscount scenarioACart
      fixed50Coupon) fixed50Coupon).discountedAmount ≠ .num (2 * 50) := by
  refine ⟨by decide, rfl, by decide⟩

theorem pw_applyLoop_cons (conds : ProductWiseConditions)
    (dets : DiscountDetails) (cid : String) (item : CartItem)
    (rest : List CartItem) (acc : Int) :
    ProductWiseHandler.applyLoop conds dets cid (item :: rest) acc =
      if ProductWiseHandler.isProductMatch conds item then
        ({ item with
            total_discount := .num (ProductWiseHandler.itemDiscount dets item)
            final_price := .num (((item.price * item.quantity : Nat) : Int) -
              ((ProductWiseHandler.itemDiscount dets item : Nat) : Int))
            appliedCouponIds := item.appliedCouponIds ++ [cid] } ::
          (ProductWiseHandler.applyLoop conds dets cid rest
            (acc + (ProductWiseHandler.itemDiscount dets item : Nat))).1,
         (ProductWiseHandler.applyLoop conds dets cid rest
            (acc + (ProductWiseHandler.itemDiscount dets item : Nat))).2)
      else
        (item :: (ProductWiseHandler.applyLoop conds dets cid rest acc).1,
         (ProductWiseHandler.applyLoop conds dets cid rest acc).2) := by
  by_cases hm : ProductWiseHandler.isProductMatch conds item = true
  · rcases hrec : ProductWiseHandler.applyLoop conds dets cid rest
      (acc + (ProductWiseHandler.itemDiscount dets item : Nat)) with ⟨a, b⟩
    simp [ProductWiseHandler.applyLoop, hm, hrec]
  · rcases hrec : ProductWiseHandler.applyLoop conds dets cid rest acc
      with ⟨a, b⟩
    simp [ProductWiseHandler.applyLoop, hm, hrec]

theorem pw_applyLoop_twice (conds : ProductWiseConditions)
    (dets : DiscountDetails) (cid : String) :
    ∀ (items : List CartItem) (acc acc2 : Int),
      (ProductWiseHandler.applyLoop conds dets cid
        (ProductWiseHandler.applyLoop conds dets cid items acc).1 acc2).2 =
      (ProductWiseHandler.applyLoop conds dets cid items acc2).2 := by
  intro items
  induction items with
  | nil =>
      intro acc acc2
      simp [ProductWiseHandler.applyLoop]
  | cons item rest ih =>
      intro acc acc2
      by_cases hm : ProductWiseHandler.isProductMatch conds item = true
      · rw [pw_applyLoop_cons conds dets cid item rest acc, if_pos hm,
          pw_applyLoop_cons, pw_applyLoop_cons conds dets cid item rest acc2,
          if_pos hm]
        have hm' : ProductWiseHandler.isProductMatch conds
            { item with
              total_discount := .num (ProductWiseHandler.itemDiscount dets item)
              final_price := .num (((item.price * item.quantity : Nat) : Int) -
                ((ProductWiseHandler.itemDiscount dets item : Nat) : Int))
              appliedCouponIds := item.appliedCouponIds ++ [cid] } =
            ProductWiseHandler.isProductMatch conds item := rfl
        have hdisc' : ProductWiseHandler.itemDiscount dets
            { item with
              total_discount := .num (ProductWiseHandler.itemDiscount dets item)
              final_price := .num (((item.price * item.quantity : Nat) : Int) -
                ((ProductWiseHandler.itemDiscount dets item : Nat) : Int))
              appliedCouponIds := item.appliedCouponIds ++ [cid] } =
            ProductWiseHandler.itemDiscount dets item := rfl
        rw [hm', hdisc', if_pos hm]
        exact ih _ _
      · rw [pw_applyLoop_cons conds dets cid item rest acc, if_neg hm,
          pw_applyLoop_cons, if_neg hm,
          pw_applyLoop_cons conds dets cid item rest acc2, if_neg hm]
        exact ih _ _

/-- The application-invariant fields of a cart item: product id, quantity,
unit price (never written by any `applyDiscount`). -/
def itemBase (it : CartItem) : String × Nat × Nat :=
  (it.product_id, it.quantity, it.price)

/-- Base fields of a whole item list. -/
def listBase (l : List CartItem) : List (String × Nat × Nat) :=
  l.map itemBase

theorem find_base_congr (pid : String) :
    ∀ (l l' : List CartItem), listBase l = listBase l' →
      Option.map itemBase (l.find? (fun it => it.product_id = pid)) =
      Option.map itemBase (l'.find? (fun it => it.product_id = pid)) := by
  intro l
  induction l with
  | nil =>
      intro l' h
      cases l' with
      | nil => rfl
      | cons j rest' => simp [listBase] at h
  | cons i rest ih =>
      intro l' h
      cases l' with
      | nil => simp [listBase] at h
      | cons j rest' =>
          simp only [listBase, List.map_cons, List.cons.injEq] at h
          obtain ⟨hij, hrest⟩ := h
          have hpid : i.product_id = j.product_id := congrArg Prod.fst hij
          by_cases hp : i.product_id = pid
          · rw [List.find?_cons_of_pos _ (by simp [hp]),
              List.find?_cons_of_pos _ (by simp [hpid ▸ hp])]
            simp [hij]
          · rw [List.find?_cons_of_neg _ (by simp [hp]),
              List.find?_cons_of_neg _ (by simp [hpid ▸ hp])]
            exact ih rest' hrest

theorem qtyInCart_congr (cart cart' : Cart)
    (h : listBase cart.items = listBase cart'.items) (pid : String) :
    qtyInCart cart pid = qtyInCart cart' pid := by
  have hf := find_base_congr pid cart.items cart'.items h
  unfold qtyInCart findItem
  cases h1 : cart.items.find? (fun it => it.product_id = pid) with
  | none =>
      cases h2 : cart'.items.find? (fun it => it.product_id = pid) with
      | none => rfl
      | some c => rw [h1, h2] at hf; exact absurd hf (by simp)
  | some c =>
      cases h2 : cart'.items.find? (fun it => it.product_id = pid) with
      | none => rw [h1, h2] at hf; exact absurd hf (by simp)
      | some c' =>
          rw [h1, h2] at hf
          simp only [Option.map_some', Option.some.injEq] at hf
          exact congrArg (fun b => b.2.1) hf

theorem setFirst_base (pid : String) :
    ∀ (items : List CartItem) (c a : CartItem),
      items.find? (fun it => it.product_id = pid) = some c →
      itemBase a = itemBase c →
      listBase (BxGyHandler.setFirst pid a items) = listBase items := by
  intro items
  induction items with
  | nil => intro c a h _; simp at h
  | cons i rest ih =>
      intro c a hfind hbase
      by_cases hp : i.product_id = pid
      · rw [List.find?_cons_of_pos _ (by simp [hp])] at hfind
        cases hfind
        simp only [BxGyHandler.setFirst, if_pos hp, listBase, List.map_cons]
        rw [show itemBase a = itemBase i from hbase]
      · rw [List.find?_cons_of_neg _ (by simp [hp])] at hfind
        simp only [BxGyHandler.setFirst, if_neg hp, listBase, List.map_cons]
        have := ih c a hfind hbase
        simp only [listBase] at this
        rw [this]

theorem setFirst_base_congr (pid : String) :
    ∀ (items items' : List CartItem) (a a' : CartItem),
      listBase items = listBase items' → itemBase a = itemBase a' →
      listBase (BxGyHandler.setFirst pid a items) =
        listBase (BxGyHandler.setFirst pid a' items') := by
  intro items
  induction items with
  | nil =>
      intro items' a a' h _
      cases items' with
      | nil => rfl
      | cons j rest' => simp [listBase] at h
  | cons i rest ih =>
      intro items' a a' h hbase
      cases items' with
      | nil => simp [listBase] at h
      | cons j rest' =>
          simp only [listBase, List.map_cons, List.cons.injEq] at h
          obtain ⟨hij, hrest⟩ := h
          have hpid : i.product_id = j.product_id := congrArg Prod.fst hij
          by_cases hp : i.product_id = pid
          · simp only [BxGyHandler.setFirst, if_pos hp, if_pos (hpid ▸ hp),
              listBase, List.map_cons]
            rw [hbase, hrest]
          · simp only [BxGyHandler.setFirst, if_neg hp, if_neg (hpid ▸ hp),
              listBase, List.map_cons]
            rw [hij]
            have := ih rest' a a' hrest hbase
            simp only [listBase] at this
            rw [this]

theorem bxgy_applyLoop_base (cid : String) :
    ∀ (gets : List (String × Nat)) (items : List CartItem) (t r : MInt),
      listBase (BxGyHandler.applyLoop cid gets items t r).1 = listBase items := by
  intro gets
  induction gets with
  | nil => intro items t r; rfl
  | cons g rest ih =>
      intro items t r
      by_cases hr : r = some 0
      · simp [BxGyHandler.applyLoop, hr]
      · simp only [BxGyHandler.applyLoop, if_neg hr]
        cases hfind : items.find? (fun it => it.product_id = g.1) with
        | none => exact ih items t r
        | some cartItem =>
            rw [ih]
            exact setFirst_base g.1 items cartItem _ hfind rfl

theorem bxgy_applyLoop_congr (cid : String) :
    ∀ (gets : List (String × Nat)) (items items' : List CartItem) (t r : MInt),
      listBase items = listBase items' →
      (BxGyHandler.applyLoop cid gets items t r).2 =
        (BxGyHandler.applyLoop cid gets items' t r).2 := by
  intro gets
  induction gets with
  | nil => intro items items' t r _; rfl
  | cons g rest ih =>
      intro items items' t r h
      by_cases hr : r = some 0
      · simp [BxGyHandler.applyLoop, hr]
      · simp only [BxGyHandler.applyLoop, if_neg hr]
        have hf := find_base_congr g.1 items items' h
        cases h1 : items.find? (fun it => it.product_id = g.1) with
        | none =>
            cases h2 : items'.find? (fun it => it.product_id = g.1) with
            | none => exact ih items items' t r h
            | some c => rw [h1, h2] at hf; exact absurd hf (by simp)
        | some c =>
            cases h2 : items'.find? (fun it => it.product_id = g.1) with
            | none => rw [h1, h2] at hf; exact absurd hf (by simp)
            | some c' =>
                rw [h1, h2] at hf
                simp only [Option.map_some', Option.some.injEq] at hf
                have hq : c.quantity = c'.quantity :=
                  congrArg (fun b => b.2.1) hf
                have hpc : c.price = c'.price := congrArg (fun b => b.2.2) hf
                simp only [hq, hpc]
                apply ih
                apply setFirst_base_congr
                · exact h
                · have hpid : c.product_id = c'.product_id :=
                    congrArg (fun b => b.1) hf
                  simp [itemBase, hpid]

theorem calculateBxGyParams_congr (cart cart' : Cart) (conds : BxGyConditions)
    (h : listBase cart.items = listBase cart'.items) :
    BxGyHandler.calculateBxGyParams cart conds =
      BxGyHandler.calculateBxGyParams cart' conds := by
  rw [calculateBxGyParams_eq, calculateBxGyParams_eq]
  have hmap : conds.buyProducts.map (fun p => qtyInCart cart p.1) =
      conds.buyProducts.map (fun p => qtyInCart cart' p.1) :=
    List.map_congr_left (fun p _ => qtyInCart_congr cart cart' h p.1)
  rw [hmap]

theorem pw_applyDiscount_eq (cart : Cart) (coupon : Coupon)
    (conds : ProductWiseConditions)
    (hcond : coupon.conditions = .productWise conds) :
    ProductWiseHandler.applyDiscount cart coupon =
      { cart with
        items := (ProductWiseHandler.applyLoop conds coupon.discountDetails
          coupon.id cart.items 0).1
        discountedAmount := .num (ProductWiseHandler.applyLoop conds
          coupon.discountDetails coupon.id cart.items 0).2
        subTotal := .num ((cart.totalAmount : Int) -
          (ProductWiseHandler.applyLoop conds coupon.discountDetails
            coupon.id cart.items 0).2) } := by
  rcases hsplit : ProductWiseHandler.applyLoop conds coupon.discountDetails
    coupon.id cart.items 0 with ⟨a, b⟩
  simp [ProductWiseHandler.applyDiscount, hcond, hsplit]

theorem bxgy_applyDiscount_zero (cart : Cart) (coupon : Coupon)
    (conds : BxGyConditions) (hcond : coupon.conditions = .bxgy conds)
    (hreps : (BxGyHandler.calculateBxGyParams cart conds).actualRepetitions =
      some 0) :
    BxGyHandler.applyDiscount cart coupon = cart := by
  simp [BxGyHandler.applyDiscount, hcond, hreps]

/-- The item rewrite and total computed by the get-products loop of
`BxGyHandler.applyDiscount` on a given cart. -/
def bxgyLoopResult (cart : Cart) (coupon : Coupon) (conds : BxGyConditions) :
    List CartItem × MInt :=
  BxGyHandler.applyLoop coupon.id conds.getProducts cart.items (some 0)
    ((BxGyHandler.calculateBxGyParams cart conds).actualRepetitions.map
      (fun n => ((n * (BxGyHandler.calculateBxGyParams cart
        conds).requiredGetQuantity : Nat) : Int)))

theorem bxgy_applyDiscount_eq (cart : Cart) (coupon : Coupon)
    (conds : BxGyConditions) (hcond : coupon.conditions = .bxgy conds)
    (hreps : ¬ (BxGyHandler.calculateBxGyParams cart conds).actualRepetitions =
      some 0) :
    BxGyHandler.applyDiscount cart coupon =
      { cart with
        items := (bxgyLoopResult cart coupon conds).1
        discountedAmount := MInt.toVal (bxgyLoopResult cart coupon conds).2
        subTotal := MInt.toVal (jsSub (some (cart.totalAmount : Int))
          (bxgyLoopResult cart coupon conds).2) } := by
  rcases hsplit : bxgyLoopResult cart coupon conds with ⟨a, b⟩
  unfold bxgyLoopResult at hsplit
  simp only [BxGyHandler.applyDiscount, hcond, if_neg hreps, hsplit,
    bxgyLoopResult]

/-- Claim C9 (amended): `applyDiscount` recomputes every discount from the
base fields (product ids, quantities, prices, cart total), which it never
modifies, and assigns its outputs with plain assignment rather than
accumulation; a second invocation therefore records exactly the same
`discountedAmount` and `subTotal` as the first — it does not double-count
(only the per-item applied-coupon-id lists accumulate). -/
theorem applyDiscount_second_invocation_overwrites
    (strategy : CartFactory.StrategyTag) (cart : Cart) (coupon : Coupon) :
    (dispatchApplyDiscount strategy
        (dispatchApplyDiscount strategy cart coupon) coupon).discountedAmount =
      (dispatchApplyDiscount strategy cart coupon).discountedAmount ∧
    (dispatchApplyDiscount strategy
        (dispatchApplyDiscount strategy cart coupon) coupon).subTotal =
      (dispatchApplyDiscount strategy cart coupon).subTotal := by
  cases strategy with
  | cartS => exact ⟨rfl, rfl⟩
  | productS =>
      simp only [dispatchApplyDiscount]
      cases hcond : coupon.conditions with
      | productWise conds =>
          rw [pw_applyDiscount_eq cart coupon conds hcond]
          rw [pw_applyDiscount_eq _ coupon conds hcond]
          constructor
          · simp only []
            rw [pw_applyLoop_twice conds coupon.discountDetails coupon.id
              cart.items 0 0]
          · simp only []
            rw [pw_applyLoop_twice conds coupon.discountDetails coupon.id
              cart.items 0 0]
      | cartWise conds =>
          have h : ProductWiseHandler.applyDiscount cart coupon = cart := by
            simp [ProductWiseHandler.applyDiscount, hcond]
          rw [h, h]
          exact ⟨rfl, rfl⟩
      | bxgy conds =>
          have h : ProductWiseHandler.applyDiscount cart coupon = cart := by
            simp [ProductWiseHandler.applyDiscount, hcond]
          rw [h, h]
          exact ⟨rfl, rfl⟩
  | bxgyS =>
      simp only [dispatchApplyDiscount]
      cases hcond : coupon.conditions with
      | bxgy conds =>
          by_cases hreps :
              (BxGyHandler.calculateBxGyParams cart conds).actualRepetitions =
                some 0
          · have h := bxgy_applyDiscount_zero cart coupon conds hcond hreps
            rw [h, h]
            exact ⟨rfl, rfl⟩
          · set c1 := BxGyHandler.applyDiscount cart coupon with hc1
            have he1 : c1 = { cart with
                items := (bxgyLoopResult cart coupon conds).1
                discountedAmount :=
                  MInt.toVal (bxgyLoopResult cart coupon conds).2
                subTotal := MInt.toVal (jsSub (some (cart.totalAmount : Int))
                  (bxgyLoopResult cart coupon conds).2) } := by
              rw [hc1]
              exact bxgy_applyDiscount_eq cart coupon conds hcond hreps
            have hbase : listBase c1.items = listBase cart.items := by
              rw [he1]
              exact bxgy_applyLoop_base coupon.id conds.getProducts
                cart.items _ _
            have hparams : BxGyHandler.calculateBxGyParams c1 conds =
                BxGyHandler.calculateBxGyParams cart conds :=
              calculateBxGyParams_congr c1 cart conds hbase
            have hreps1 : ¬ (BxGyHandler.calculateBxGyParams c1
                conds).actualRepetitions = some 0 := by
              rw [hparams]
              exact hreps
            have he2 := bxgy_applyDiscount_eq c1 coupon conds hcond hreps1
            have hloop : (bxgyLoopResult c1 coupon conds).2 =
                (bxgyLoopResult cart coupon conds).2 := by
              unfold bxgyLoopResult
              rw [hparams]
              exact bxgy_applyLoop_congr coupon.id conds.getProducts c1.items
                cart.items (some 0) _ hbase
            have htot : c1.totalAmount = cart.totalAmount := by rw [he1]
            have hda : c1.discountedAmount =
                MInt.toVal (bxgyLoopResult cart coupon conds).2 := by
              rw [he1]
            have hsub : c1.subTotal = MInt.toVal
                (jsSub (some (cart.totalAmount : Int))
                  (bxgyLoopResult cart coupon conds).2) := by
              rw [he1]
            constructor
            · rw [he2]
              show MInt.toVal (bxgyLoopResult c1 coupon conds).2 =
                c1.discountedAmount
              rw [hloop, hda]
            · rw [he2]
              show MInt.toVal (jsSub (some (c1.totalAmount : Int))
                  (bxgyLoopResult c1 coupon conds).2) = c1.subTotal
              rw [hloop, htot, hsub]
      | cartWise conds =>
          have h : BxGyHandler.applyDiscount cart coupon = cart := by
            simp [BxGyHandler.applyDiscount, hcond]
          rw [h, h]
          exact ⟨rfl, rfl⟩
      | productWise conds =>
          have h : BxGyHandler.applyDiscount cart coupon = cart := by
            simp [BxGyHandler.applyDiscount, hcond]
          rw [h, h]
          exact ⟨rfl, rfl⟩

/-! ## Claim C8: invariants after applyDiscount on an eligible coupon -/

theorem pw_singleton_applicable (cart : Cart) (c : Coupon)
    (h : ProductWiseHandler.isApplicable cart [c] ≠ []) :
    ∃ a, ProductWiseHandler.isApplicableOne cart c = some a := by
  unfold ProductWiseHandler.isApplicable at h
  split at h
  · exact absurd rfl h
  · cases hone : ProductWiseHandler.isApplicableOne cart c with
    | some a => exact ⟨a, rfl⟩
    | none => exact absurd (by simp [hone]) h

theorem bxgy_singleton_applicable (cart : Cart) (c : Coupon)
    (h : BxGyHandler.isApplicable cart [c] ≠ []) :
    ∃ a, BxGyHandler.isApplicableOne cart c = some a := by
  unfold BxGyHandler.isApplicable at h
  split at h
  · exact absurd rfl h
  · cases hone : BxGyHandler.isApplicableOne cart c with
    | some a => exact ⟨a, rfl⟩
    | none => exact absurd (by simp [hone]) h

theorem pw_applicableOne_shape (cart : Cart) (c : Coupon)
    (a : ApplicableCoupons)
    (h : ProductWiseHandler.isApplicableOne cart c = some a) :
    ∃ conds, c.conditions = .productWise conds := by
  cases hc : c.conditions with
  | productWise conds => exact ⟨conds, rfl⟩
  | cartWise conds => simp [ProductWiseHandler.isApplicableOne, hc] at h
  | bxgy conds => simp [ProductWiseHandler.isApplicableOne, hc] at h

theorem bxgy_applicableOne_shape (cart : Cart) (c : Coupon)
    (a : ApplicableCoupons)
    (h : BxGyHandler.isApplicableOne cart c = some a) :
    ∃ conds, c.conditions = .bxgy conds := by
  cases hc : c.conditions with
  | bxgy conds => exact ⟨conds, rfl⟩
  | cartWise conds => simp [BxGyHandler.isApplicableOne, hc] at h
  | productWise conds => simp [BxGyHandler.isApplicableOne, hc] at h

theorem bxgy_applicable_reps_ne_zero (cart : Cart) (c : Coupon)
    (a : ApplicableCoupons) (conds : BxGyConditions)
    (hcond : c.conditions = .bxgy conds)
    (h : BxGyHandler.isApplicableOne cart c = some a) :
    ¬ (BxGyHandler.calculateBxGyParams cart conds).actualRepetitions =
      some 0 := by
  simp only [BxGyHandler.isApplicableOne, hcond] at h
  split at h
  · exact absurd h (by simp)
  · split at h
    · exact absurd h (by simp)
    · rename_i hne
      exact hne

theorem pw_applyLoop_items (conds : ProductWiseConditions)
    (dets : DiscountDetails) (cid : String) :
    ∀ (items : List CartItem) (acc : Int),
      ∀ it ∈ (ProductWiseHandler.applyLoop conds dets cid items acc).1,
        it ∈ items ∨
        ∀ d : Int, it.total_discount = .num d →
          it.final_price = .num (((it.quantity * it.price : Nat) : Int) - d) := by
  intro items
  induction items with
  | nil =>
      intro acc it hit
      simp [ProductWiseHandler.applyLoop] at hit
  | cons item rest ih =>
      intro acc it hit
      by_cases hm : ProductWiseHandler.isProductMatch conds item = true
      · simp only [ProductWiseHandler.applyLoop, hm, if_true] at hit
        rcases List.mem_cons.mp hit with hit | hit
        · refine Or.inr ?_
          intro d hd
          rw [hit]
          rw [hit] at hd
          simp only [JsVal.num.injEq] at hd
          subst hd
          simp [Nat.mul_comm item.quantity item.price]
        · rcases ih _ it hit with hmem | hinv
          · exact Or.inl (List.mem_cons_of_mem _ hmem)
          · exact Or.inr hinv
      · simp only [ProductWiseHandler.applyLoop, hm, if_false] at hit
        rcases List.mem_cons.mp hit with hit | hit
        · exact Or.inl (by simp [hit])
        · rcases ih _ it hit with hmem | hinv
          · exact Or.inl (List.mem_cons_of_mem _ hmem)
          · exact Or.inr hinv

theorem bxgy_applyLoop_items (cid : String) :
    ∀ (gets : List (String × Nat)) (items : List CartItem) (t r : MInt),
      ∀ it ∈ (BxGyHandler.applyLoop cid gets items t r).1,
        it ∈ items ∨
        ∀ d : Int, it.total_discount = .num d →
          it.final_price = .num (((it.quantity * it.price : Nat) : Int) - d) := by
  intro gets
  induction gets with
  | nil =>
      intro items t r it hit
      exact Or.inl (by simpa [BxGyHandler.applyLoop] using hit)
  | cons g rest ih =>
      intro items t r it hit
      by_cases hr : r = some 0
      · simp only [BxGyHandler.applyLoop, hr, if_true] at hit
        exact Or.inl hit
      · simp only [BxGyHandler.applyLoop, if_neg hr] at hit
        cases hfind : items.find? (fun x => x.product_id = g.1) with
        | none =>
            rw [hfind] at hit
            exact ih items t r it hit
        | some cartItem =>
            rw [hfind] at hit
            rcases ih _ _ _ it hit with hmem | hinv
            · rcases setFirst_mem g.1 _ items it hmem with hx | hx
              · refine Or.inr ?_
                intro d hd
                rw [hx]
                rw [hx] at hd
                cases r with
                | none => exact absurd hd (by simp [MInt.toVal])
                | some rv =>
                    simp only [Option.map_some', MInt.toVal, jsSub,
                      JsVal.num.injEq] at hd ⊢
                    omega
              · exact Or.inl hx
            · exact Or.inr hinv

/-- Claim C8: after `applyDiscount` of any of the three strategies on a
cart and an eligible coupon (one the strategy's `isApplicable` returns for
this cart, as the application orchestrator re-validates), the cart
satisfies `subTotal = totalAmount - discountedAmount`, and every item
touched by the application — any output item not carried over unchanged
from the input — satisfies `final_price = quantity*price - total_discount`. -/
theorem applyDiscount_invariants (strategy : CartFactory.StrategyTag)
    (cart : Cart) (coupon : Coupon)
    (helig : dispatchIsApplicable strategy cart [coupon] ≠ []) :
    (∀ D : Int,
      (dispatchApplyDiscount strategy cart coupon).discountedAmount = .num D →
      (dispatchApplyDiscount strategy cart coupon).subTotal =
        .num ((cart.totalAmount : Int) - D)) ∧
    (∀ it ∈ (dispatchApplyDiscount strategy cart coupon).items,
      it ∈ cart.items ∨
      ∀ d : Int, it.total_discount = .num d →
        it.final_price = .num (((it.quantity * it.price : Nat) : Int) - d)) := by
  cases strategy with
  | cartS =>
      constructor
      · intro D hD
        simp only [dispatchApplyDiscount, CartWiseHandler.applyDiscount,
          JsVal.num.injEq] at hD ⊢
        rw [hD]
      · intro it hit
        exact Or.inl hit
  | productS =>
      obtain ⟨a, hone⟩ :=
        pw_singleton_applicable cart coupon (by simpa [dispatchIsApplicable] using helig)
      obtain ⟨conds, hcond⟩ := pw_applicableOne_shape cart coupon a hone
      simp only [dispatchApplyDiscount]
      rw [pw_applyDiscount_eq cart coupon conds hcond]
      constructor
      · intro D hD
        simp only [JsVal.num.injEq] at hD ⊢
        rw [hD]
      · intro it hit
        exact pw_applyLoop_items conds coupon.discountDetails coupon.id
          cart.items 0 it hit
  | bxgyS =>
      obtain ⟨a, hone⟩ :=
        bxgy_singleton_applicable cart coupon (by simpa [dispatchIsApplicable] using helig)
      obtain ⟨conds, hcond⟩ := bxgy_applicableOne_shape cart coupon a hone
      have hreps := bxgy_applicable_reps_ne_zero cart coupon a conds hcond hone
      simp only [dispatchApplyDiscount]
      rw [bxgy_applyDiscount_eq cart coupon conds hcond hreps]
      constructor
      · intro D hD
        cases hb : (bxgyLoopResult cart coupon conds).2 with
        | none =>
            rw [hb] at hD
            exact absurd hD (by simp [MInt.toVal])
        | some t =>
            rw [hb] at hD
            simp only [MInt.toVal, jsSub, JsVal.num.injEq] at hD ⊢
            rw [hD]
      · intro it hit
        have hit' : it ∈ (bxgyLoopResult cart coupon conds).1 := hit
        unfold bxgyLoopResult at hit'
        exact bxgy_applyLoop_items coupon.id conds.getProducts cart.items
          (some 0) _ it hit'

/-- Witness for claim C8 on the ProductScoped strategy at a concrete cart
and matching coupon. -/
theorem applyDiscount_invariants_witness :
    dispatchIsApplicable CartFactory.StrategyTag.productS scenarioCCart
      [laptopIdCoupon] ≠ [] ∧
    ((∀ D : Int,
      (dispatchApplyDiscount CartFactory.StrategyTag.productS scenarioCCart
        laptopIdCoupon).discountedAmount = .num D →
      (dispatchApplyDiscount CartFactory.StrategyTag.productS scenarioCCart
        laptopIdCoupon).subTotal =
        .num ((scenarioCCart.totalAmount : Int) - D)) ∧
    (∀ it ∈ (dispatchApplyDiscount CartFactory.StrategyTag.productS
        scenarioCCart laptopIdCoupon).items,
      it ∈ scenarioCCart.items ∨
      ∀ d : Int, it.total_discount = .num d →
        it.final_price = .num (((it.quantity * it.price : Nat) : Int) - d))) :=
  ⟨by decide,
   applyDiscount_invariants CartFactory.StrategyTag.productS scenarioCCart
     laptopIdCoupon (by decide)⟩
